import Mathlib

/-!
# Verification of the Proteome Discoverer MGF scan-number repair tool

A shallow embedding of `src/scan_nr_repair_tool.py` (functions
`parse_scannr`, `read_spectra`, `repair_scan_numbers`) together with
theorems about its behaviour.

Modelling conventions:
* A pyteomics spectrum `params` dictionary is modelled by `Params`,
  keeping only the two keys the tool reads (`scans`, `title`); an
  absent key is `none`.
* Python's builtin `int(str)` on ASCII decimal strings is modelled by
  `pyInt` (surrounding whitespace stripped, optional sign, a nonempty
  run of digits; anything else raises `ValueError`, modelled as `none`).
* `re.findall` is an external library collaborator; `parse_scannr` is
  parameterised over it (`findall : pattern → title → matches`).  The
  concrete instance `re_findall_default` implements it for the tool's
  default pattern `\.\d+\.` (a run of digits bounded by literal dots,
  matched leftmost, non-overlapping, as `re` does).
* A pandas dataframe is a list of named columns (`DataFrame`); loading
  a table from disk is an external collaborator, so
  `repair_scan_numbers` receives the dataframes that `pd.read_csv` /
  `pd.read_excel` would return for its path.
* A `try/except: pass` fallback step becomes an `Option`-valued step
  function; an uncaught Python exception becomes `Except.error` with a
  `PyError` describing the exception.
-/

namespace ScanRepair

/-- The pyteomics `params` dictionary of one MGF spectrum, restricted to
the keys read by the tool: the optional `SCANS=` field and the optional
`TITLE=` field.  `none` models an absent key. -/
structure Params where
  scans : Option String
  title : Option String
  deriving DecidableEq, Repr

/-- Numeric value of a list of decimal digit characters (most significant
first), e.g. `['4','5','6'] ↦ 456`. -/
def digitsVal (l : List Char) : Nat :=
  l.foldl (fun a c => 10 * a + (c.toNat - '0'.toNat)) 0

/-- Models Python `s.strip()`: remove leading and trailing whitespace. -/
def pyTrim (s : String) : String :=
  ⟨((s.data.dropWhile Char.isWhitespace).reverse.dropWhile Char.isWhitespace).reverse⟩

/-- Models Python's builtin `int(s)` on an ASCII string: strip surrounding
whitespace, allow one optional sign, then a nonempty run of decimal
digits; every other input raises `ValueError`, modelled as `none`. -/
def pyInt (s : String) : Option Int :=
  match (pyTrim s).data with
  | [] => none
  | '-' :: ds =>
      if !ds.isEmpty && ds.all Char.isDigit then some (-(digitsVal ds : Int)) else none
  | '+' :: ds =>
      if !ds.isEmpty && ds.all Char.isDigit then some (digitsVal ds : Int) else none
  | ds =>
      if ds.all Char.isDigit then some (digitsVal ds : Int) else none

/-- If `sep` is an initial segment of `l`, the remainder of `l` after it;
`none` otherwise. -/
def dropSep : List Char → List Char → Option (List Char)
  | [], l => some l
  | _ :: _, [] => none
  | a :: ss, b :: l => if a = b then dropSep ss l else none

/-- Worker for `pySplit`, structurally recursive on a fuel argument so
that it evaluates inside the kernel; `fuel = l.length` always suffices
because every step consumes at least one character (`sep` is nonempty at
every call site).  `acc` holds the current fragment, reversed. -/
def pySplitAux (sep : List Char) : Nat → List Char → List Char → List (List Char)
  | 0, l, acc => [acc.reverse ++ l]
  | fuel + 1, l, acc =>
    match l with
    | [] => [acc.reverse]
    | c :: rest =>
      match dropSep sep l with
      | some rem => acc.reverse :: pySplitAux sep fuel rem []
      | none => pySplitAux sep fuel rest (c :: acc)

/-- Models Python `s.split(sep)` for a nonempty separator: cut at every
leftmost, non-overlapping occurrence of `sep`; the result always has one
more part than there are occurrences.  (Python raises `ValueError` on an
empty separator; the tool only ever splits on `"scan"`, `"scan="` and
`"."`.) -/
def pySplit (s sep : String) : List String :=
  if sep.data.isEmpty then [s]
  else (pySplitAux sep.data s.data.length s.data []).map (fun l => ⟨l⟩)

/-- Models Python `s.strip('"')`: remove leading and trailing double-quote
characters (and only those). -/
def stripQuotes (s : String) : String :=
  ⟨((s.data.dropWhile (· = '"')).reverse.dropWhile (· = '"')).reverse⟩

/-- Models `re.sub(r"[^0-9]", "", s)`: keep only decimal digits. -/
def digitsOnly (s : String) : String :=
  ⟨s.data.filter Char.isDigit⟩

/-- Fallback step 1 of `parse_scannr` (source lines 99-103): if the
`scans` key is present, `int(params["scans"])`; an absent key or a
`ValueError` makes the step fail. -/
def step_scans (p : Params) : Option Int :=
  p.scans.bind pyInt

/-- Fallback step 2a of `parse_scannr` (source lines 109-113): if the
title contains the substring `"scan"`, take
`title.split("scan=")[1].strip('"')` and parse it as an integer; any
exception (`IndexError` when `"scan="` does not occur, `ValueError` when
the parse fails) makes the step fail.  The containment test
`"scan" in title` is expressed through `pySplit`: the substring occurs
iff splitting on it yields at least two parts. -/
def step_scan_token (title : String) : Option Int :=
  if 2 ≤ (pySplit title "scan").length then
    match pySplit title "scan=" with
    | _ :: y :: _ => pyInt (stripQuotes y)
    | _ => none
  else none

/-- Fallback step 2b of `parse_scannr` (source lines 116-122): take the
first match of `pattern` in the title (`IndexError` when there is none),
delete every non-digit character, and if a nonempty digit string remains
return its value (`int` on a nonempty digit string cannot fail). -/
def step_pattern (findall : String → String → List String)
    (pattern title : String) : Option Int :=
  match findall pattern title with
  | [] => none
  | m :: _ =>
      let d := m.data.filter Char.isDigit
      if 0 < d.length then some (digitsVal d : Int) else none

/-- `parse_scannr(params, pattern, i)` (source lines 75-131): ordered
fallback parse of a scan number, returning `(exit_code, scan_nr)` with
exit code `0` on success and `1` on failure, in which case the supplied
fallback `i` is returned as the scan number.  `findall` stands for the
`re.findall` collaborator. -/
def parse_scannr (findall : String → String → List String)
    (params : Params) (pattern : String) (i : Int) : Nat × Int :=
  match step_scans params with
  | some n => (0, n)
  | none =>
    match params.title with
    | none => (1, i)
    | some t =>
      match step_scan_token t with
      | some n => (0, n)
      | none =>
        match step_pattern findall pattern t with
        | some n => (0, n)
        | none =>
          match pyInt t with
          | some n => (0, n)
          | none => (1, i)

/-- Splits a character list into its longest prefix of decimal digits and
the remainder (the `\d+` part of a regex match attempt). -/
def takeDigits : List Char → List Char × List Char
  | [] => ([], [])
  | c :: rest =>
      if c.isDigit then
        let p := takeDigits rest
        (c :: p.1, p.2)
      else ([], c :: rest)

/-- Worker for `dotNumMatches`, structurally recursive on a fuel
argument so that it evaluates inside the kernel; `fuel = l.length`
always suffices because every step consumes at least one character. -/
def dotNumAux : Nat → List Char → List String
  | 0, _ => []
  | _, [] => []
  | fuel + 1, c :: rest =>
      if c = '.' then
        match takeDigits rest with
        | (d :: ds, '.' :: rest3) =>
            (⟨'.' :: (d :: ds) ++ ['.']⟩ : String) :: dotNumAux fuel rest3
        | _ => dotNumAux fuel rest
      else dotNumAux fuel rest

/-- All matches of the regex `\.\d+\.` in a character list: leftmost,
non-overlapping, scanning left to right, exactly as `re.findall` finds
them.  At a literal dot, a maximal nonempty digit run followed by a
second dot is a match and the scan resumes after that second dot;
otherwise the scan advances one character. -/
def dotNumMatches (l : List Char) : List String :=
  dotNumAux l.length l

/-- The `re.findall` collaborator, implemented for the tool's default
pattern `"\.\d+\."` (the only pattern the repository ever passes); the
behaviour of `re` on other patterns is outside the model and yields no
matches. -/
def re_findall_default (pattern title : String) : List String :=
  if pattern = "\\.\\d+\\." then dotNumMatches title.data else []

/-- The loop body of `read_spectra` (source lines 164-167), with `s` the
0-based enumeration counter of the first spectrum of the list: for each
spectrum call `parse_scannr` with fallback `-(s + 1)`, record
`result_dict[s + 1] = scan_nr` in insertion order, and accumulate the
exit codes.  Returns `(result_dict, exit_code)`. -/
def read_spectra_loop (findall : String → String → List String) (pattern : String) :
    List Params → Nat → List (Int × Int) × Nat
  | [], _ => ([], 0)
  | p :: rest, s =>
      let r := parse_scannr findall p pattern (-((s : Int) + 1))
      let q := read_spectra_loop findall pattern rest (s + 1)
      (((s : Int) + 1, r.2) :: q.1, r.1 + q.2)

/-- `read_spectra(filename, pattern)` (source lines 134-175), applied to
the spectra that pyteomics yields from the file.  Returns the
index-to-scan-number dictionary together with the accumulated exit code
(the failure count; the source only uses it to decide whether to emit a
non-fatal `RuntimeWarning`).  On an empty spectra source the loop never
binds `s`, so the `print(f"... {s + 1} ...")` after the loop raises
`NameError`; the function then returns nothing, modelled as `none`. -/
def read_spectra (findall : String → String → List String)
    (spectra : List Params) (pattern : String) : Option (List (Int × Int) × Nat) :=
  match spectra with
  | [] => none
  | _ :: _ => some (read_spectra_loop findall pattern spectra 0)

/-- One cell of a pandas dataframe: an integer or a free-form string. -/
inductive Cell where
  | int (n : Int)
  | str (s : String)
  deriving DecidableEq, Repr

/-- A pandas dataframe: a list of named columns, each a list of cells in
row order. -/
structure DataFrame where
  cols : List (String × List Cell)
  deriving DecidableEq, Repr

/-- The Python exceptions `repair_scan_numbers` can raise. -/
inductive PyError where
  /-- `ValueError`: unsupported table file extension, or `int(x)` on a
  non-numeric cell inside the column rewrite. -/
  | valueError (msg : String)
  /-- `KeyError`: `mapping[int(x)]` with a key absent from the
  dictionary built by `read_spectra`. -/
  | keyError (k : Int)
  /-- `KeyError` on `df[colname]` when the column does not exist. -/
  | colError (c : String)
  /-- `NameError` out of `read_spectra` on an empty spectra source. -/
  | nameError
  deriving DecidableEq, Repr

deriving instance DecidableEq for Except

/-- Models Python `int(x)` on a dataframe cell. -/
def cellInt : Cell → Option Int
  | .int n => some n
  | .str s => pyInt s

/-- The lambda of source line 232, `lambda x: mapping[int(x)]`, on one
cell: coerce the cell to an integer (`ValueError` on failure), look it
up in the mapping (`KeyError` on a missing key), and return the mapped
scan number. -/
def repairCell (mapping : List (Int × Int)) (c : Cell) : Except PyError Cell :=
  match cellInt c with
  | none => .error (.valueError "invalid literal for int")
  | some k =>
    match mapping.lookup k with
    | none => .error (.keyError k)
    | some v => .ok (.int v)

/-- `df[colname].apply(lambda x: mapping[int(x)])`: rewrite the cells of
the column in row order; the first exception aborts the whole apply. -/
def mapCells (mapping : List (Int × Int)) : List Cell → Except PyError (List Cell)
  | [] => .ok []
  | c :: cs =>
    match repairCell mapping c with
    | .error e => .error e
    | .ok c2 =>
      match mapCells mapping cs with
      | .error e => .error e
      | .ok cs2 => .ok (c2 :: cs2)

/-- `df[c]`: the first column named `c`, if any (a missing column raises
`KeyError` at the use site). -/
def getCol (df : DataFrame) (c : String) : Option (List Cell) :=
  (df.cols.find? (fun q => q.1 = c)).map (·.2)

/-- Replace the values of the first column named `c` (the assignment
`df[c] = ...` for an existing column); all other columns untouched. -/
def setColList (c : String) (vs : List Cell) :
    List (String × List Cell) → List (String × List Cell)
  | [] => []
  | q :: rest => if q.1 = c then (q.1, vs) :: rest else q :: setColList c vs rest

/-- `df[c] = vs` for an existing column `c`. -/
def setCol (df : DataFrame) (c : String) (vs : List Cell) : DataFrame :=
  ⟨setColList c vs df.cols⟩

/-- The part of `repair_scan_numbers` after the table has been loaded
(source lines 230-234): build the mapping with `read_spectra`, then
rewrite the scan-number column through it. -/
def repair_with_df (findall : String → String → List String) (df : DataFrame)
    (colname_scannr : String) (spectra : List Params) (pattern : String) :
    Except PyError DataFrame :=
  match read_spectra findall spectra pattern with
  | none => .error .nameError
  | some q =>
    match getCol df colname_scannr with
    | none => .error (.colError colname_scannr)
    | some cs =>
      match mapCells q.1 cs with
      | .error e => .error e
      | .ok cs2 => .ok (setCol df colname_scannr cs2)

/-- `repair_scan_numbers(filename_data, colname_scannr, filename_mgf,
pattern)` (source lines 177-234).  The extension is
`filename_data.split(".")[-1].strip()`; `.csv` loads via `pd.read_csv`,
`.xlsx` via `pd.read_excel`, anything else raises `ValueError` before
the spectra file is touched.  The two pandas loaders and the pyteomics
reader are external collaborators, so the function receives the
dataframe each loader would produce for this path (`readCsv`,
`readExcel`) and the spectra the MGF file contains (`spectra`). -/
def repair_scan_numbers (findall : String → String → List String)
    (readCsv readExcel : DataFrame) (filename_data colname_scannr : String)
    (spectra : List Params) (pattern : String) : Except PyError DataFrame :=
  let ext := pyTrim ((pySplit filename_data ".").getLastD "")
  if ext = "csv" then
    repair_with_df findall readCsv colname_scannr spectra pattern
  else if ext = "xlsx" then
    repair_with_df findall readExcel colname_scannr spectra pattern
  else
    .error (.valueError ("Unsupported file extension " ++ ext))

/-! ## General lemmas about `parse_scannr` -/

/-- Every run of `parse_scannr` either succeeds (exit code `0`) or
returns exactly `(1, i)` with the supplied fallback. -/
theorem parse_scannr_cases (findall : String → String → List String)
    (p : Params) (pattern : String) (i : Int) :
    (parse_scannr findall p pattern i).1 = 0 ∨ parse_scannr findall p pattern i = (1, i) := by
  unfold parse_scannr
  rcases h1 : step_scans p with _ | n
  · rcases h2 : p.title with _ | t
    · simp [h1, h2]
    · rcases h3 : step_scan_token t with _ | n
      · rcases h4 : step_pattern findall pattern t with _ | n
        · rcases h5 : pyInt t with _ | n
          · simp [h1, h2, h3, h4, h5]
          · simp [h1, h2, h3, h4, h5]
        · simp [h1, h2, h3, h4]
      · simp [h1, h2, h3]
  · simp [h1]

/-! ## C1 -/

/-- **C1.** For every metadata mapping whose direct scan-number field
`scans` parses as an integer `n`, `parse_scannr` returns success with
exactly that integer, for every `findall` collaborator, every pattern
and every fallback, and whatever the `title` field holds: the title is
never consulted. -/
theorem scans_field_always_wins (findall : String → String → List String)
    (p : Params) (pattern : String) (i : Int) (s : String) (n : Int)
    (hs : p.scans = some s) (hn : pyInt s = some n) :
    parse_scannr findall p pattern i = (0, n) := by
  unfold parse_scannr step_scans
  rw [hs]
  simp [hn]

/-- Witness for C1: `scans = "42"` beats a title that both the `scan=`
token rule and the default pattern would read differently. -/
theorem scans_field_always_wins_witness :
    parse_scannr re_findall_default ⟨some "42", some "file.5.scan=\"123\""⟩
      "\\.\\d+\\." (-1) = (0, 42) :=
  scans_field_always_wins re_findall_default ⟨some "42", some "file.5.scan=\"123\""⟩
    "\\.\\d+\\." (-1) "42" 42 rfl (by decide)

/-! ## C3 -/

/-- **C3 counterexample.** The title `scan="5" z` contains the token
`scan="5"` with `N = 5` and the `scans` key is absent, so the claim
demands success with `5`.  The code instead takes everything after
`scan=` to the end of the string — not just up to the next quote — so
`int('5" z')` raises, the remaining steps fail too, and the parse
returns failure `(1, -1)`, not `(0, 5)`. -/
theorem scan_token_not_stopped_at_quote :
    parse_scannr re_findall_default ⟨none, some "scan=\"5\" z"⟩
      "\\.\\d+\\." (-1) ≠ (0, 5) := by
  decide

/-- **C3 amended.** For every metadata mapping with no parseable `scans`
field whose title contains `"scan"`, if the text after the first
`"scan="` — taken to the end of the title, not merely to the next
quote — parses as an integer `n` once double quotes are stripped from
its two ends, then `parse_scannr` returns success with `n`, even if the
supplied pattern would also match the title. -/
theorem scan_token_extraction (findall : String → String → List String)
    (p : Params) (pattern : String) (i : Int) (t x y : String)
    (rest : List String) (n : Int)
    (h1 : step_scans p = none)
    (ht : p.title = some t)
    (hscan : 2 ≤ (pySplit t "scan").length)
    (hsplit : pySplit t "scan=" = x :: y :: rest)
    (hn : pyInt (stripQuotes y) = some n) :
    parse_scannr findall p pattern i = (0, n) := by
  have hstep : step_scan_token t = some n := by
    unfold step_scan_token
    rw [if_pos hscan, hsplit]
    exact hn
  unfold parse_scannr
  simp [h1, ht, hstep]

/-- Witness for C3 amended: the title `file.5.scan="123"` carries the
token `scan="123"` at its end and also matches the default pattern at
`.5.`; the token wins and `123` is returned. -/
theorem scan_token_extraction_witness :
    parse_scannr re_findall_default ⟨none, some "file.5.scan=\"123\""⟩
      "\\.\\d+\\." (-1) = (0, 123) :=
  scan_token_extraction re_findall_default ⟨none, some "file.5.scan=\"123\""⟩
    "\\.\\d+\\." (-1) "file.5.scan=\"123\"" "file.5." "\"123\"" [] 123
    rfl rfl (by decide) (by decide) (by decide)

/-! ## C5 -/

/-- **C5.** For every metadata mapping with no parseable `scans` field
and no applicable `scan=` token, if `findall` produces a first match `m`
of the pattern against the title and deleting every non-digit character
of `m` leaves a nonempty digit string, `parse_scannr` returns success
with that digit string's value. -/
theorem pattern_step_extraction (findall : String → String → List String)
    (p : Params) (pattern : String) (i : Int) (t m : String) (ms : List String)
    (h1 : step_scans p = none)
    (ht : p.title = some t)
    (h2 : step_scan_token t = none)
    (hm : findall pattern t = m :: ms)
    (hd : m.data.filter Char.isDigit ≠ []) :
    parse_scannr findall p pattern i
      = (0, (digitsVal (m.data.filter Char.isDigit) : Int)) := by
  have hstep : step_pattern findall pattern t
      = some (digitsVal (m.data.filter Char.isDigit) : Int) := by
    unfold step_pattern
    rw [hm]
    simp [List.length_pos.mpr hd]
  unfold parse_scannr
  simp [h1, ht, h2, hstep]

/-- Witness for C5, the instance named by the claim: title
`sample.456.2.dta` with the default pattern `\.\d+\.` yields first
match `.456.` and scan number `456`. -/
theorem pattern_step_extraction_witness :
    parse_scannr re_findall_default ⟨none, some "sample.456.2.dta"⟩
      "\\.\\d+\\." (-1) = (0, 456) :=
  (pattern_step_extraction re_findall_default ⟨none, some "sample.456.2.dta"⟩
    "\\.\\d+\\." (-1) "sample.456.2.dta" ".456." []
    rfl rfl (by decide) (by decide) (by decide)).trans (by decide)

/-! ## C6 -/

/-- **C6.** Whenever every fallback step fails — the `scans` field is
absent or unparseable, and the title is absent or defeats the `scan=`
token rule, the pattern rule and the whole-title parse — `parse_scannr`
returns the failure flag together with the supplied fallback `i` as the
scan number. -/
theorem all_steps_fail_returns_fallback (findall : String → String → List String)
    (p : Params) (pattern : String) (i : Int)
    (h1 : step_scans p = none)
    (h2 : ∀ t, p.title = some t →
      step_scan_token t = none ∧ step_pattern findall pattern t = none ∧ pyInt t = none) :
    parse_scannr findall p pattern i = (1, i) := by
  unfold parse_scannr
  rcases ht : p.title with _ | t
  · simp [h1, ht]
  · obtain ⟨ha, hb, hc⟩ := h2 t ht
    simp [h1, ht, ha, hb, hc]

/-- Witness for C6: `scans = "abc"` is unparseable and the title
`xyz` defeats every title rule, so the fallback `-7` is returned with
the failure flag. -/
theorem all_steps_fail_returns_fallback_witness :
    parse_scannr re_findall_default ⟨some "abc", some "xyz"⟩
      "\\.\\d+\\." (-7) = (1, -7) :=
  all_steps_fail_returns_fallback re_findall_default ⟨some "abc", some "xyz"⟩
    "\\.\\d+\\." (-7) (by decide)
    (fun t ht => by
      have h : "xyz" = t := by simpa using ht
      subst h
      exact ⟨by decide, by decide, by decide⟩)

/-! ## C10 -/

/-- **C10.** `parse_scannr` is total by construction (every Python
exception a step can raise is caught by that step's bare `except`, and
`"scan" in title` plus the final `return` are exception-free on string
titles), and it always returns a pair whose exit code is `0` exactly on
an inferred scan number and `1` otherwise, the scan-number component
being the supplied fallback in the failure case. -/
theorem parse_scannr_total (findall : String → String → List String)
    (p : Params) (pattern : String) (i : Int) :
    ((parse_scannr findall p pattern i).1 = 0 ∨ (parse_scannr findall p pattern i).1 = 1)
      ∧ ((parse_scannr findall p pattern i).1 = 1 → (parse_scannr findall p pattern i).2 = i) := by
  rcases parse_scannr_cases findall p pattern i with h | h
  · exact ⟨Or.inl h, fun h1 => by rw [h] at h1; cases h1⟩
  · exact ⟨Or.inr (by rw [h]), fun _ => by rw [h]⟩

/-- Witness for C10: at a metadata mapping with neither key the exit
code is `1` and the conclusion instantiates to the fallback `-7`. -/
theorem parse_scannr_total_witness :
    (parse_scannr re_findall_default ⟨none, none⟩ "\\.\\d+\\." (-7)).2 = -7 :=
  (parse_scannr_total re_findall_default ⟨none, none⟩ "\\.\\d+\\." (-7)).2 (by decide)

/-! ## C2 -/

/-- The keys produced by the `read_spectra` loop started at counter `s`
are `s+1, s+2, ...` in file order, one per spectrum. -/
theorem read_spectra_loop_keys (findall : String → String → List String)
    (pattern : String) (l : List Params) (s : Nat) :
    (read_spectra_loop findall pattern l s).1.map Prod.fst
      = (List.range l.length).map (fun k => ((s + k : Nat) : Int) + 1) := by
  induction l generalizing s with
  | nil => simp [read_spectra_loop]
  | cons p rest ih =>
    simp only [read_spectra_loop, List.map_cons, List.length_cons,
      List.range_succ_eq_map, List.map_map]
    rw [ih (s + 1)]
    refine congrArg₂ _ (by simp) ?_
    have : ((fun k => ((s + k : Nat) : Int) + 1) ∘ Nat.succ)
        = fun k => (((s + 1) + k : Nat) : Int) + 1 := by
      funext k
      simp [Function.comp]
      ring
    rw [this]

/-- **C2 counterexample.** On a spectra source containing `N = 0`
spectra the claim demands a mapping with zero entries; instead the
loop never binds its counter, the `print` after the loop reads the
unbound variable, `read_spectra` raises `NameError` and returns
nothing. -/
theorem read_spectra_crashes_on_empty :
    read_spectra re_findall_default [] "\\.\\d+\\." = none := rfl

/-- **C2 amended.** For every *nonempty* spectra source containing `N`
spectra, `read_spectra` returns a mapping with exactly `N` entries whose
keys are exactly the ordinal positions `1..N` in order — one entry per
spectrum, no gaps, no duplicates — regardless of whether each
spectrum's scan number was parsed successfully. -/
theorem read_spectra_keys (findall : String → String → List String)
    (spectra : List Params) (pattern : String) (h : spectra ≠ []) :
    ∃ q, read_spectra findall spectra pattern = some q ∧
      q.1.length = spectra.length ∧
      q.1.map Prod.fst
        = (List.range spectra.length).map (fun k : Nat => (k : Int) + 1) := by
  rcases spectra with _ | ⟨p, rest⟩
  · exact absurd rfl h
  · refine ⟨read_spectra_loop findall pattern (p :: rest) 0, rfl, ?_, ?_⟩
    · have hk := congrArg List.length (read_spectra_loop_keys findall pattern (p :: rest) 0)
      simpa using hk
    · have hk := read_spectra_loop_keys findall pattern (p :: rest) 0
      have hf : (fun k : Nat => ((0 + k : Nat) : Int) + 1) = fun k : Nat => (k : Int) + 1 := by
        funext k
        simp
      rw [hf] at hk
      exact hk

/-- Witness for C2 amended: two spectra, the first unparseable, still
give the two keys `1, 2`. -/
theorem read_spectra_keys_witness :
    ∃ q, read_spectra re_findall_default [⟨none, none⟩, ⟨some "7", none⟩]
        "\\.\\d+\\." = some q ∧
      q.1.length = 2 ∧ q.1.map Prod.fst = [1, 2] := by
  obtain ⟨q, hq, hl, hk⟩ := read_spectra_keys re_findall_default
    [⟨none, none⟩, ⟨some "7", none⟩] "\\.\\d+\\." (by decide)
  exact ⟨q, hq, hl, hk.trans (by decide)⟩

/-! ## C7 -/

/-- Number of positions of the mapping whose value is its own
negative-position sentinel `-p`. -/
def sentinelCount (mapping : List (Int × Int)) : Nat :=
  (mapping.filter (fun q => decide (q.2 = -q.1))).length

/-- **C7 counterexample.** A single spectrum whose `scans` field is the
string `"-1"` parses *successfully* to `-1`, which coincides with the
sentinel `-1` of position `1`: the accumulated failure count is `0` but
one position holds its own negative-position sentinel, refuting the
claimed equality. -/
theorem failure_count_not_sentinel_count :
    read_spectra re_findall_default [⟨some "-1", none⟩] "\\.\\d+\\."
        = some ([(1, -1)], 0) ∧
      sentinelCount [(1, -1)] ≠ 0 := by
  decide

/-- In the loop, the failure count equals the number of sentinel-valued
positions as long as every successful parse yields a nonnegative scan
number. -/
theorem read_spectra_loop_sentinel (findall : String → String → List String)
    (pattern : String) (l : List Params) (s : Nat)
    (hpos : ∀ p ∈ l, ∀ j : Int, (parse_scannr findall p pattern j).1 = 0 →
      0 ≤ (parse_scannr findall p pattern j).2) :
    (read_spectra_loop findall pattern l s).2
      = sentinelCount (read_spectra_loop findall pattern l s).1 := by
  induction l generalizing s with
  | nil => simp [read_spectra_loop, sentinelCount]
  | cons p rest ih =>
    have hrest := ih (s + 1) (fun p hp => hpos p (List.mem_cons_of_mem _ hp))
    simp only [sentinelCount] at hrest ⊢
    simp only [read_spectra_loop, List.filter_cons, decide_eq_true_eq]
    rcases parse_scannr_cases findall p pattern (-((s : Int) + 1)) with h0 | h1
    · have hge := hpos p (List.mem_cons_self _ _) (-((s : Int) + 1)) h0
      have hne : ¬((parse_scannr findall p pattern (-((s : Int) + 1))).2
          = -((s : Int) + 1)) := by
        intro he
        rw [he] at hge
        omega
      rw [if_neg hne, h0]
      omega
    · rw [h1]
      simp only [if_true, List.length_cons]
      omega

/-- **C7 amended.** For every spectra source all of whose *successfully*
parsed scan numbers are nonnegative (real scan numbers are positive),
the accumulated failure count equals the number of ordinal positions `p`
whose mapping value equals `-p`, because each spectrum at position `p`
is parsed with fallback `-p` and only a failure can deposit that
negative value there. -/
theorem failure_count_eq_sentinel_count (findall : String → String → List String)
    (spectra : List Params) (pattern : String)
    (hpos : ∀ p ∈ spectra, ∀ j : Int, (parse_scannr findall p pattern j).1 = 0 →
      0 ≤ (parse_scannr findall p pattern j).2)
    (q : List (Int × Int) × Nat)
    (hq : read_spectra findall spectra pattern = some q) :
    q.2 = sentinelCount q.1 := by
  rcases spectra with _ | ⟨p, rest⟩
  · cases hq
  · have hq2 : read_spectra_loop findall pattern (p :: rest) 0 = q := by
      injection hq
    rw [← hq2]
    exact read_spectra_loop_sentinel findall pattern (p :: rest) 0 hpos

/-- Witness for C7 amended: one success (`144`) and one failure at
position `2`; the failure count `1` equals the number of sentinel
positions of `[(1, 144), (2, -2)]`. -/
theorem failure_count_eq_sentinel_count_witness :
    (1 : Nat) = sentinelCount [(1, 144), (2, -2)] := by
  have h144 : ∀ j : Int, parse_scannr re_findall_default ⟨some "144", none⟩
      "\\.\\d+\\." j = (0, 144) := fun j => rfl
  have hnone : ∀ j : Int, parse_scannr re_findall_default ⟨none, none⟩
      "\\.\\d+\\." j = (1, j) := fun j => rfl
  have := failure_count_eq_sentinel_count re_findall_default
    [⟨some "144", none⟩, ⟨none, none⟩] "\\.\\d+\\."
    (by
      intro p hp j hj
      simp only [List.mem_cons, List.mem_singleton] at hp
      rcases hp with rfl | rfl | h
      · rw [h144 j]
        decide
      · rw [hnone j] at hj
        cases hj
      · cases h)
    ([(1, 144), (2, -2)], 1) (by decide)
  simpa using this

/-! ## Dataframe and lookup lemmas -/

/-- Reading a column that occurs after columns with other names finds
exactly its values. -/
theorem getCol_append (c : String) (vs : List Cell)
    (pre post : List (String × List Cell)) (hpre : ∀ q ∈ pre, q.1 ≠ c) :
    getCol ⟨pre ++ (c, vs) :: post⟩ c = some vs := by
  unfold getCol
  induction pre with
  | nil => simp [List.find?]
  | cons a pre ih =>
    have ha := hpre a (List.mem_cons_self _ _)
    simp only [List.cons_append, List.find?]
    rw [show (decide (a.1 = c)) = false from by simpa using ha]
    exact ih (fun q hq => hpre q (List.mem_cons_of_mem _ hq))

/-- Writing a column that occurs after columns with other names replaces
exactly its values and leaves every other column unchanged. -/
theorem setColList_append (c : String) (vs old : List Cell)
    (pre post : List (String × List Cell)) (hpre : ∀ q ∈ pre, q.1 ≠ c) :
    setColList c vs (pre ++ (c, old) :: post) = pre ++ (c, vs) :: post := by
  induction pre with
  | nil => simp [setColList]
  | cons a pre ih =>
    have ha := hpre a (List.mem_cons_self _ _)
    simp only [List.cons_append, setColList, if_neg ha]
    exact congrArg (a :: ·) (ih (fun q hq => hpre q (List.mem_cons_of_mem _ hq)))

/-- A key that is not among the keys of an association list has no
lookup. -/
theorem lookup_eq_none_of_not_mem_keys (m : List (Int × Int)) (k : Int)
    (h : k ∉ m.map Prod.fst) : m.lookup k = none := by
  induction m with
  | nil => rfl
  | cons a m ih =>
    simp only [List.map_cons, List.mem_cons] at h
    push_neg at h
    simp only [List.lookup]
    rw [show (k == a.1) = false from by simpa using h.1]
    exact ih h.2

/-- If every cell of the column is an integer and some cell's key has no
entry in the mapping, the column rewrite aborts with a `KeyError`. -/
theorem mapCells_error_of_lookup_fail (mapping : List (Int × Int)) (cs : List Cell)
    (hall : ∀ c ∈ cs, ∃ n : Int, c = .int n)
    (k : Int) (hk : Cell.int k ∈ cs) (hlk : mapping.lookup k = none) :
    ∃ e, mapCells mapping cs = .error (.keyError e) := by
  induction cs with
  | nil => cases hk
  | cons c cs ih =>
    obtain ⟨n, rfl⟩ := hall c (List.mem_cons_self _ _)
    rcases hl : mapping.lookup n with _ | v
    · exact ⟨n, by simp [mapCells, repairCell, cellInt, hl]⟩
    · have hk2 : Cell.int k ∈ cs := by
        rcases List.mem_cons.mp hk with he | h
        · injection he with hkn
          subst hkn
          rw [hlk] at hl
          cases hl
        · exact h
      obtain ⟨e, he⟩ := ih (fun c hc => hall c (List.mem_cons_of_mem _ hc)) hk2
      exact ⟨e, by simp [mapCells, repairCell, cellInt, hl, he]⟩

/-! ## C4 -/

/-- **C4.** For a table whose designated scan column holds `[1, 2, 3]`
and a 3-spectrum spectra file whose scan numbers resolve to
`[144, 273, 892]`, `repair_scan_numbers` (for either supported table
format) returns the table with the designated column rewritten to
`[144, 273, 892]` in the same row order and with every other column —
before or after it — unchanged. -/
theorem repair_end_to_end (findall : String → String → List String)
    (filename_data colname pattern : String)
    (pre post : List (String × List Cell)) (df : DataFrame)
    (p1 p2 p3 : Params)
    (hext : pyTrim ((pySplit filename_data ".").getLastD "") = "csv"
      ∨ pyTrim ((pySplit filename_data ".").getLastD "") = "xlsx")
    (hdf : df.cols = pre ++ (colname, [.int 1, .int 2, .int 3]) :: post)
    (hpre : ∀ q ∈ pre, q.1 ≠ colname)
    (h1 : (parse_scannr findall p1 pattern (-1)).2 = 144)
    (h2 : (parse_scannr findall p2 pattern (-2)).2 = 273)
    (h3 : (parse_scannr findall p3 pattern (-3)).2 = 892) :
    repair_scan_numbers findall df df filename_data colname [p1, p2, p3] pattern
      = .ok ⟨pre ++ (colname, [.int 144, .int 273, .int 892]) :: post⟩ := by
  obtain ⟨cols⟩ := df
  simp only at hdf
  subst hdf
  have hread : read_spectra findall [p1, p2, p3] pattern
      = some ([(1, 144), (2, 273), (3, 892)],
          (parse_scannr findall p1 pattern (-1)).1
            + ((parse_scannr findall p2 pattern (-2)).1
              + ((parse_scannr findall p3 pattern (-3)).1 + 0))) := by
    simp only [read_spectra, read_spectra_loop]
    norm_num [h1, h2, h3]
  have hg := getCol_append colname [Cell.int 1, Cell.int 2, Cell.int 3] pre post hpre
  have hmc : mapCells [(1, 144), (2, 273), (3, 892)]
      [Cell.int 1, Cell.int 2, Cell.int 3]
      = .ok [Cell.int 144, Cell.int 273, Cell.int 892] := by decide
  have hset := setColList_append colname [Cell.int 144, Cell.int 273, Cell.int 892]
    [Cell.int 1, Cell.int 2, Cell.int 3] pre post hpre
  have hgo : repair_with_df findall
      ⟨pre ++ (colname, [Cell.int 1, Cell.int 2, Cell.int 3]) :: post⟩
      colname [p1, p2, p3] pattern
      = .ok ⟨pre ++ (colname, [Cell.int 144, Cell.int 273, Cell.int 892]) :: post⟩ := by
    simp only [repair_with_df, hread, hg, hmc, setCol, hset]
  simp only [repair_scan_numbers]
  rcases hext with hx | hx <;> rw [hx] <;> simp [hgo]

/-- Witness for C4: a three-column `.xlsx` table with `First Scan`
`[1, 2, 3]` between two other columns, and three spectra resolving to
`144`, `273` (via the default pattern) and `892`. -/
theorem repair_end_to_end_witness :
    repair_scan_numbers re_findall_default
      ⟨[("Checked", [.str "F", .str "T", .str "F"]),
        ("First Scan", [.int 1, .int 2, .int 3]),
        ("Seq", [.str "A", .str "B", .str "C"])]⟩
      ⟨[("Checked", [.str "F", .str "T", .str "F"]),
        ("First Scan", [.int 1, .int 2, .int 3]),
        ("Seq", [.str "A", .str "B", .str "C"])]⟩
      "psms.xlsx" "First Scan"
      [⟨some "144", none⟩, ⟨none, some "s.273.2.dta"⟩, ⟨some "892", none⟩]
      "\\.\\d+\\."
      = .ok ⟨[("Checked", [.str "F", .str "T", .str "F"]),
              ("First Scan", [.int 144, .int 273, .int 892]),
              ("Seq", [.str "A", .str "B", .str "C"])]⟩ :=
  repair_end_to_end re_findall_default "psms.xlsx" "First Scan" "\\.\\d+\\."
    [("Checked", [.str "F", .str "T", .str "F"])]
    [("Seq", [.str "A", .str "B", .str "C"])]
    ⟨[("Checked", [.str "F", .str "T", .str "F"]),
      ("First Scan", [.int 1, .int 2, .int 3]),
      ("Seq", [.str "A", .str "B", .str "C"])]⟩
    ⟨some "144", none⟩ ⟨none, some "s.273.2.dta"⟩ ⟨some "892", none⟩
    (Or.inr (by decide)) rfl (by decide) (by decide) (by decide) (by decide)

/-! ## C9 -/

/-- **C9.** For every table path whose extension (in the code's sense:
the last dot-separated component, whitespace-stripped) is neither `csv`
nor `xlsx`, `repair_scan_numbers` raises the fatal `ValueError`
immediately: the conclusion holds for *every* spectra list and every
loaded table, so nothing is read from the spectra file, no mapping is
built and no output is produced. -/
theorem unsupported_extension_fatal (findall : String → String → List String)
    (readCsv readExcel : DataFrame) (filename_data colname : String)
    (spectra : List Params) (pattern : String)
    (h1 : pyTrim ((pySplit filename_data ".").getLastD "") ≠ "csv")
    (h2 : pyTrim ((pySplit filename_data ".").getLastD "") ≠ "xlsx") :
    repair_scan_numbers findall readCsv readExcel filename_data colname spectra pattern
      = .error (.valueError ("Unsupported file extension "
          ++ pyTrim ((pySplit filename_data ".").getLastD ""))) := by
  simp only [repair_scan_numbers]
  rw [if_neg h1, if_neg h2]

/-- Witness for C9: a `.txt` table path is rejected with the extension
named in the error, whatever the spectra contain. -/
theorem unsupported_extension_fatal_witness :
    repair_scan_numbers re_findall_default ⟨[]⟩ ⟨[]⟩ "results.txt" "First Scan"
      [⟨some "144", none⟩] "\\.\\d+\\."
      = .error (.valueError "Unsupported file extension txt") :=
  (unsupported_extension_fatal re_findall_default ⟨[]⟩ ⟨[]⟩ "results.txt" "First Scan"
    [⟨some "144", none⟩] "\\.\\d+\\." (by decide) (by decide)).trans (by decide)

/-! ## C8 -/

/-- **C8.** Repair is rejected rather than idempotent on an
already-repaired table: when the designated column holds integers of
which at least one — as a repaired scan number, in contrast to a 1-based
ordinal position — lies outside the ordinal range `1..N` of the
`N`-spectrum file, `repair_scan_numbers` aborts with the uncaught
`KeyError` of the mapping lookup instead of producing output. -/
theorem repair_rejects_repaired_table (findall : String → String → List String)
    (filename_data colname pattern : String) (df : DataFrame) (cs : List Cell)
    (spectra : List Params)
    (hext : pyTrim ((pySplit filename_data ".").getLastD "") = "csv"
      ∨ pyTrim ((pySplit filename_data ".").getLastD "") = "xlsx")
    (hget : getCol df colname = some cs)
    (hall : ∀ c ∈ cs, ∃ n : Int, c = .int n)
    (hbad : ∃ k : Int, Cell.int k ∈ cs ∧ (k ≤ 0 ∨ (spectra.length : Int) < k))
    (hne : spectra ≠ []) :
    ∃ e, repair_scan_numbers findall df df filename_data colname spectra pattern
      = .error (.keyError e) := by
  rcases spectra with _ | ⟨p, rest⟩
  · exact absurd rfl hne
  obtain ⟨k, hk, hko⟩ := hbad
  have hkeys := read_spectra_loop_keys findall pattern (p :: rest) 0
  have hnot : k ∉ (read_spectra_loop findall pattern (p :: rest) 0).1.map Prod.fst := by
    rw [hkeys]
    simp only [List.mem_map, List.mem_range]
    rintro ⟨j, hj, hjk⟩
    simp only [List.length_cons] at hj hko
    omega
  have hlk := lookup_eq_none_of_not_mem_keys _ k hnot
  obtain ⟨e, he⟩ := mapCells_error_of_lookup_fail _ cs hall k hk hlk
  refine ⟨e, ?_⟩
  have hgo : repair_with_df findall df colname (p :: rest) pattern
      = .error (.keyError e) := by
    simp only [repair_with_df, read_spectra, hget, he]
  simp only [repair_scan_numbers]
  rcases hext with hx | hx <;> rw [hx] <;> simp [hgo]

/-- Witness for C8: re-running the repair on the already-repaired
`First Scan` column `[144, 273, 892]` against the same 3-spectrum file
fails with a `KeyError` (`144` is not an ordinal position in `1..3`). -/
theorem repair_rejects_repaired_table_witness :
    ∃ e, repair_scan_numbers re_findall_default
      ⟨[("First Scan", [Cell.int 144, Cell.int 273, Cell.int 892])]⟩
      ⟨[("First Scan", [Cell.int 144, Cell.int 273, Cell.int 892])]⟩
      "psms_fixed.xlsx" "First Scan"
      [⟨some "144", none⟩, ⟨none, some "s.273.2.dta"⟩, ⟨some "892", none⟩]
      "\\.\\d+\\." = .error (.keyError e) :=
  repair_rejects_repaired_table re_findall_default "psms_fixed.xlsx" "First Scan"
    "\\.\\d+\\."
    ⟨[("First Scan", [Cell.int 144, Cell.int 273, Cell.int 892])]⟩
    [Cell.int 144, Cell.int 273, Cell.int 892]
    [⟨some "144", none⟩, ⟨none, some "s.273.2.dta"⟩, ⟨some "892", none⟩]
    (Or.inr (by decide)) (by decide)
    (by
      intro c hc
      simp only [List.mem_cons, List.not_mem_nil, or_false] at hc
      rcases hc with rfl | rfl | rfl
      · exact ⟨144, rfl⟩
      · exact ⟨273, rfl⟩
      · exact ⟨892, rfl⟩)
    ⟨144, by decide, Or.inr (by decide)⟩ (by decide)

end ScanRepair
